import Mathlib

/-!
Shallow embedding of the StripeService adapter (src/src/StripeService.ts).

The provider SDK (the external collaborator) is abstracted: the webhook
signature check appears as a `verify` function parameter, and the balance
probe used by verifyConnection appears as an `Except` outcome parameter.
Everything the adapter itself computes is translated directly from the
source: the bootstrap validation, the product mapping, the checkout-session
request construction, and the webhook dispatch logic.
-/

/-- Configuration bundle given at construction (interface StripeServiceConfig). -/
structure StripeServiceConfig where
  apiKey : String
  webhookSecret : String
  appVersion : String
  requiredStripeVersion : String
deriving DecidableEq, Repr

/-- The checkout-session payload read from an event by handleWebhook.
In the SDK the metadata mapping may be null, hence the Option. -/
structure CheckoutSession where
  id : String
  metadata : Option (List (String × String))
deriving DecidableEq, Repr

/-- A verified event: a type tag plus the data object, which handleWebhook
reinterprets as a checkout session when the type matches (the source casts
event.data.object unchecked). -/
structure StripeEvent where
  type : String
  object : CheckoutSession
deriving DecidableEq, Repr

/-- Reading a key from a string-to-string metadata mapping. -/
def lookupMeta (m : List (String × String)) (k : String) : Option String :=
  (m.find? (fun kv => kv.1 == k)).map (fun kv => kv.2)

/-- The diagnostic line printed by validateBootstrap:
console.log of the bracketed service tag, the app version and "initialized". -/
def bootLog (appVersion : String) : String :=
  "[StripeService] v" ++ appVersion ++ " initialized."

/-- The message of the error thrown on a malformed secret key. -/
def invalidKeyMsg : String :=
  "Invalid Stripe Secret Key provided. Ensure it starts with sk_."

/-- The startsWith test of the source, modelled over the character
sequences of the two strings. -/
def strStartsWith (s pre : String) : Bool :=
  pre.data.isPrefixOf s.data

/-- validateBootstrap: logs the diagnostic line, then throws unless the api
key starts with sk_. Returns the construction outcome together with the
list of emitted diagnostic lines. -/
def validateBootstrap (config : StripeServiceConfig) :
    Except String Unit × List String :=
  if strStartsWith config.apiKey "sk_" then
    (Except.ok (), [bootLog config.appVersion])
  else
    (Except.error invalidKeyMsg, [bootLog config.appVersion])

/-- A default price object as returned by the provider catalog. -/
structure StripePrice where
  id : String
  unit_amount : Int
  currency : String
deriving DecidableEq, Repr

/-- An active catalog entry with its expanded default price. -/
structure StripeProduct where
  id : String
  name : String
  description : Option String
  default_price : StripePrice
deriving DecidableEq, Repr

/-- The shape fetchActiveProducts maps each catalog entry to. -/
structure MappedProduct where
  id : String
  name : String
  description : Option String
  price : ℚ
  priceId : String
  currency : String
deriving DecidableEq, Repr

/-- The per-entry mapping inside fetchActiveProducts: minor units divided by
100, price id copied, currency the constant string usd. -/
def mapActiveProduct (product : StripeProduct) : MappedProduct :=
  { id := product.id
  , name := product.name
  , description := product.description
  , price := (product.default_price.unit_amount : ℚ) / 100
  , priceId := product.default_price.id
  , currency := "usd" }

/-- fetchActiveProducts applied to the provider response data
(the list of active products with expanded default prices). -/
def fetchActiveProducts (data : List StripeProduct) : List MappedProduct :=
  data.map mapActiveProduct

/-- One line item of the checkout request. -/
structure LineItem where
  price : String
  quantity : Nat
deriving DecidableEq, Repr

/-- The subscription_data part of the checkout request. -/
structure SubscriptionData where
  metadata : List (String × String)
deriving DecidableEq, Repr

/-- The session-creation request built by createCheckoutSession. -/
structure CheckoutSessionParams where
  payment_method_types : List String
  line_items : List LineItem
  mode : String
  success_url : String
  cancel_url : String
  metadata : List (String × String)
  subscription_data : SubscriptionData
deriving DecidableEq, Repr

/-- createCheckoutSession: the request it sends to the provider, with the
user id embedded in both the session metadata and subscription_data.metadata. -/
def createCheckoutSession (userId priceId successUrl cancelUrl : String) :
    CheckoutSessionParams :=
  { payment_method_types := ["card"]
  , line_items := [{ price := priceId, quantity := 1 }]
  , mode := "subscription"
  , success_url := successUrl
  , cancel_url := cancelUrl
  , metadata := [("userId", userId)]
  , subscription_data := { metadata := [("userId", userId)] } }

/-- Outcome of handleWebhook: the returned event, a signature verification
failure propagated from constructEvent, or a failure propagated from the
fulfillment handler. -/
inductive WebhookOutcome where
  | ok (event : StripeEvent)
  | signatureError (msg : String)
  | handlerError (msg : String)
deriving DecidableEq, Repr

/-- handleWebhook. The SDK call constructEvent is the parameter `verify`
(body, signature header, secret to a verified event or an error). The
result pairs the outcome with the list of fulfillment-handler invocations
made, each recorded as the (userId, session) arguments passed; the handler
call is awaited, so its outcome decides the returned value. The guard on
the extracted userId is the JS truthiness test of the source: a missing
entry and an empty string both skip dispatch. -/
def handleWebhook (verify : String → String → String → Except String StripeEvent)
    (config : StripeServiceConfig) (body signature : String)
    (onFulfillment : String → CheckoutSession → Except String Unit) :
    WebhookOutcome × List (String × CheckoutSession) :=
  match verify body signature config.webhookSecret with
  | Except.error msg => (WebhookOutcome.signatureError msg, [])
  | Except.ok event =>
    if event.type = "checkout.session.completed" then
      match event.object.metadata.bind (fun m => lookupMeta m "userId") with
      | some u =>
        if u = "" then (WebhookOutcome.ok event, [])
        else
          match onFulfillment u event.object with
          | Except.ok _ => (WebhookOutcome.ok event, [(u, event.object)])
          | Except.error msg => (WebhookOutcome.handlerError msg, [(u, event.object)])
      | none => (WebhookOutcome.ok event, [])
    else (WebhookOutcome.ok event, [])

/-- An error value surfaced by the provider SDK; only its message field is
read by verifyConnection. -/
structure StripeError where
  message : String
deriving DecidableEq, Repr

/-- Result value of verifyConnection. -/
inductive ConnectionResult where
  | connected (apiVersion appVersion : String)
  | failed (message : String)
deriving DecidableEq, Repr

/-- verifyConnection: the balance probe outcome is the parameter. On
success it reports connected with the configured versions; on any failure
it catches the error and returns its message as data. -/
def verifyConnection (config : StripeServiceConfig)
    (balanceRetrieve : Except StripeError Unit) : ConnectionResult :=
  match balanceRetrieve with
  | Except.ok _ =>
      ConnectionResult.connected config.requiredStripeVersion config.appVersion
  | Except.error e => ConnectionResult.failed e.message

/-- A sample configuration used by concrete witnesses. -/
def exConfig : StripeServiceConfig :=
  { apiKey := "sk_test_123"
  , webhookSecret := "whsec_1"
  , appVersion := "1.0.2"
  , requiredStripeVersion := "2025-01-27.acacia" }

/-- A completed-checkout session whose metadata carries userId u1. -/
def sessionU1 : CheckoutSession :=
  { id := "cs_1", metadata := some [("userId", "u1")] }

/-- A completed-checkout event carrying sessionU1. -/
def eventU1 : StripeEvent :=
  { type := "checkout.session.completed", object := sessionU1 }

/-- A completed-checkout session whose metadata carries an empty userId. -/
def sessionEmptyUser : CheckoutSession :=
  { id := "cs_2", metadata := some [("userId", "")] }

/-- A completed-checkout event carrying sessionEmptyUser. -/
def eventEmptyUser : StripeEvent :=
  { type := "checkout.session.completed", object := sessionEmptyUser }

/-- A completed-checkout session without a userId entry. -/
def sessionNoUser : CheckoutSession :=
  { id := "cs_3", metadata := some [("plan", "gbedu")] }

/-- A completed-checkout event carrying sessionNoUser. -/
def eventNoUser : StripeEvent :=
  { type := "checkout.session.completed", object := sessionNoUser }

/-- An event of a type other than checkout.session.completed. -/
def eventOther : StripeEvent :=
  { type := "invoice.paid", object := sessionU1 }

/-- A verify function that accepts everything and yields the given event. -/
def verifyOk (event : StripeEvent) :
    String → String → String → Except String StripeEvent :=
  fun _ _ _ => Except.ok event

/-- A verify function that rejects everything with the given message. -/
def verifyFail (msg : String) :
    String → String → String → Except String StripeEvent :=
  fun _ _ _ => Except.error msg

/-- A fulfillment handler that always succeeds. -/
def handlerOk : String → CheckoutSession → Except String Unit :=
  fun _ _ => Except.ok ()

/-- A fulfillment handler that always fails with the given message. -/
def handlerFail (msg : String) : String → CheckoutSession → Except String Unit :=
  fun _ _ => Except.error msg

/-- A sample catalog entry whose default price has minor-unit amount 2599. -/
def product2599 : StripeProduct :=
  { id := "prod_1"
  , name := "Gbedu"
  , description := some "monthly plan"
  , default_price := { id := "price_1", unit_amount := 2599, currency := "usd" } }

/-- A sample catalog entry whose default price is denominated in eur. -/
def productEur : StripeProduct :=
  { id := "prod_2"
  , name := "Kpatakpata"
  , description := none
  , default_price := { id := "price_2", unit_amount := 500, currency := "eur" } }

/-- C1 (amended): for every verified event of type checkout.session.completed
whose session metadata carries a userId entry with a non-empty value u,
handleWebhook invokes the fulfillment handler exactly once, with arguments
u and the session payload of the event; the call is awaited, and when the
handler succeeds handleWebhook returns the verified event. -/
theorem C1_fulfillment_dispatched_once
    (verify : String → String → String → Except String StripeEvent)
    (config : StripeServiceConfig) (body signature u : String)
    (onFulfillment : String → CheckoutSession → Except String Unit)
    (event : StripeEvent)
    (hv : verify body signature config.webhookSecret = Except.ok event)
    (ht : event.type = "checkout.session.completed")
    (hu : event.object.metadata.bind (fun m => lookupMeta m "userId") = some u)
    (hne : u ≠ "") :
    (handleWebhook verify config body signature onFulfillment).2
      = [(u, event.object)]
    ∧ (onFulfillment u event.object = Except.ok () →
        (handleWebhook verify config body signature onFulfillment).1
          = WebhookOutcome.ok event) := by
  unfold handleWebhook
  rw [hv]
  simp only [ht, if_pos rfl, hu]
  rw [if_neg hne]
  cases hf : onFulfillment u event.object with
  | ok v => cases v; simp [hf]
  | error msg => simp [hf]

/-- C1 witness: the amended theorem evaluated on a concrete completed
checkout event carrying userId u1 and an always-succeeding handler. -/
theorem C1_fulfillment_dispatched_once_witness :
    (handleWebhook (verifyOk eventU1) exConfig "body" "sig" handlerOk).2
      = [("u1", eventU1.object)]
    ∧ (handlerOk "u1" eventU1.object = Except.ok () →
        (handleWebhook (verifyOk eventU1) exConfig "body" "sig" handlerOk).1
          = WebhookOutcome.ok eventU1) :=
  C1_fulfillment_dispatched_once (verifyOk eventU1) exConfig "body" "sig" "u1"
    handlerOk eventU1 rfl rfl rfl (by decide)

/-- C1 counterexample: the claim quantifies over every userId value u, but
on a verified completed-checkout event whose metadata carries the userId
entry with the empty-string value, the source guard (JS truthiness) skips
dispatch, so the handler is invoked zero times rather than exactly once. -/
theorem C1_empty_userId_counterexample :
    eventEmptyUser.type = "checkout.session.completed"
    ∧ eventEmptyUser.object.metadata.bind (fun m => lookupMeta m "userId")
        = some ""
    ∧ (handleWebhook (verifyOk eventEmptyUser) exConfig "body" "sig"
        handlerOk).2.length = 0 :=
  ⟨rfl, rfl, rfl⟩

/-- C2: for every verified event on which dispatch does not apply — type
other than checkout.session.completed, or that type with no userId entry in
the session metadata — handleWebhook invokes no handler, raises no error,
and returns the original verified event unmodified. -/
theorem C2_non_dispatch_passthrough
    (verify : String → String → String → Except String StripeEvent)
    (config : StripeServiceConfig) (body signature : String)
    (onFulfillment : String → CheckoutSession → Except String Unit)
    (event : StripeEvent)
    (hv : verify body signature config.webhookSecret = Except.ok event)
    (h : event.type ≠ "checkout.session.completed"
        ∨ event.object.metadata.bind (fun m => lookupMeta m "userId") = none) :
    handleWebhook verify config body signature onFulfillment
      = (WebhookOutcome.ok event, []) := by
  unfold handleWebhook
  rw [hv]
  rcases h with h | h
  · simp [h]
  · simp [h]

/-- C2 witness: the theorem evaluated on a concrete event of a different
type and on a concrete completed-checkout event lacking a userId entry. -/
theorem C2_non_dispatch_passthrough_witness :
    handleWebhook (verifyOk eventOther) exConfig "body" "sig" handlerOk
      = (WebhookOutcome.ok eventOther, [])
    ∧ handleWebhook (verifyOk eventNoUser) exConfig "body" "sig" handlerOk
      = (WebhookOutcome.ok eventNoUser, []) :=
  ⟨C2_non_dispatch_passthrough (verifyOk eventOther) exConfig "body" "sig"
      handlerOk eventOther rfl (Or.inl (by decide)),
   C2_non_dispatch_passthrough (verifyOk eventNoUser) exConfig "body" "sig"
      handlerOk eventNoUser rfl (Or.inr rfl)⟩

/-- C3: whenever signature verification of (body, signature header) against
the configured secret fails, handleWebhook propagates the verification
error to its caller and the fulfillment handler is never invoked. -/
theorem C3_signature_failure_propagates
    (verify : String → String → String → Except String StripeEvent)
    (config : StripeServiceConfig) (body signature msg : String)
    (onFulfillment : String → CheckoutSession → Except String Unit)
    (hv : verify body signature config.webhookSecret = Except.error msg) :
    handleWebhook verify config body signature onFulfillment
      = (WebhookOutcome.signatureError msg, []) := by
  unfold handleWebhook
  rw [hv]

/-- C3 witness: the theorem evaluated with a concrete rejecting verifier. -/
theorem C3_signature_failure_propagates_witness :
    handleWebhook (verifyFail "bad signature") exConfig "body" "sig" handlerOk
      = (WebhookOutcome.signatureError "bad signature", []) :=
  C3_signature_failure_propagates (verifyFail "bad signature") exConfig
    "body" "sig" "bad signature" handlerOk rfl

/-- C4: when the fulfillment handler is invoked on a verified completed
checkout with a non-empty userId and fails, handleWebhook propagates the
handler failure message unmodified to its caller (after the single
invocation was made). -/
theorem C4_handler_failure_propagates
    (verify : String → String → String → Except String StripeEvent)
    (config : StripeServiceConfig) (body signature u err : String)
    (onFulfillment : String → CheckoutSession → Except String Unit)
    (event : StripeEvent)
    (hv : verify body signature config.webhookSecret = Except.ok event)
    (ht : event.type = "checkout.session.completed")
    (hu : event.object.metadata.bind (fun m => lookupMeta m "userId") = some u)
    (hne : u ≠ "")
    (hf : onFulfillment u event.object = Except.error err) :
    handleWebhook verify config body signature onFulfillment
      = (WebhookOutcome.handlerError err, [(u, event.object)]) := by
  unfold handleWebhook
  rw [hv]
  simp [ht, hu, hne, hf]

/-- C4 witness: the theorem evaluated on a concrete event and a concrete
failing handler. -/
theorem C4_handler_failure_propagates_witness :
    handleWebhook (verifyOk eventU1) exConfig "body" "sig"
        (handlerFail "db down")
      = (WebhookOutcome.handlerError "db down", [("u1", eventU1.object)]) :=
  C4_handler_failure_propagates (verifyOk eventU1) exConfig "body" "sig"
    "u1" "db down" (handlerFail "db down") eventU1 rfl rfl rfl (by decide) rfl

/-- C9: a verified completed-checkout event whose metadata carries a userId
entry holding the empty string is treated like one with no userId: the
handler is not invoked, no error is raised, and the event is returned. -/
theorem C9_empty_userId_skipped
    (verify : String → String → String → Except String StripeEvent)
    (config : StripeServiceConfig) (body signature : String)
    (onFulfillment : String → CheckoutSession → Except String Unit)
    (event : StripeEvent)
    (hv : verify body signature config.webhookSecret = Except.ok event)
    (ht : event.type = "checkout.session.completed")
    (hu : event.object.metadata.bind (fun m => lookupMeta m "userId")
        = some "") :
    handleWebhook verify config body signature onFulfillment
      = (WebhookOutcome.ok event, []) := by
  unfold handleWebhook
  rw [hv]
  simp [ht, hu]

/-- C9 witness: the theorem evaluated on the concrete empty-userId event. -/
theorem C9_empty_userId_skipped_witness :
    handleWebhook (verifyOk eventEmptyUser) exConfig "body" "sig" handlerOk
      = (WebhookOutcome.ok eventEmptyUser, []) :=
  C9_empty_userId_skipped (verifyOk eventEmptyUser) exConfig "body" "sig"
    handlerOk eventEmptyUser rfl rfl rfl

/-- C5: for every config whose api key lacks the sk_ prefix, construction
fails with the configuration error; for every config whose api key has the
prefix, construction succeeds and exactly one diagnostic line is emitted,
a line that contains the app version. -/
theorem C5_bootstrap_validation (config : StripeServiceConfig) :
    (strStartsWith config.apiKey "sk_" = false →
        validateBootstrap config
          = (Except.error invalidKeyMsg, [bootLog config.appVersion]))
    ∧ (strStartsWith config.apiKey "sk_" = true →
        validateBootstrap config
          = (Except.ok (), [bootLog config.appVersion])
        ∧ ∃ a b, bootLog config.appVersion = a ++ config.appVersion ++ b) := by
  constructor
  · intro h
    simp [validateBootstrap, h]
  · intro h
    exact ⟨by simp [validateBootstrap, h], "[StripeService] v", " initialized.", rfl⟩

/-- C5 witness: the theorem evaluated on a conforming concrete config and
on a non-conforming one. -/
theorem C5_bootstrap_validation_witness :
    (validateBootstrap exConfig
      = (Except.ok (), [bootLog "1.0.2"])
      ∧ ∃ a b, bootLog "1.0.2" = a ++ "1.0.2" ++ b) :=
  (C5_bootstrap_validation exConfig).2 (by decide)

/-- C6: the session-creation request built by createCheckoutSession embeds
the userId both in the session metadata and in the subscription metadata
(subscription_data.metadata), for every userId and every other argument. -/
theorem C6_metadata_propagation (userId priceId successUrl cancelUrl : String) :
    lookupMeta (createCheckoutSession userId priceId successUrl cancelUrl).metadata
        "userId" = some userId
    ∧ lookupMeta
        (createCheckoutSession userId priceId successUrl cancelUrl).subscription_data.metadata
        "userId" = some userId :=
  ⟨rfl, rfl⟩

/-- C7 (amended): verifyConnection never throws. For every outcome of the
balance probe it returns a value: on success, connected with the configured
required provider api version and app version; on any provider failure, an
error result carrying the message of the provider error (which is empty
exactly when the provider error message is empty). -/
theorem C7_verify_connection_total (config : StripeServiceConfig)
    (balanceRetrieve : Except StripeError Unit) :
    (balanceRetrieve = Except.ok () →
        verifyConnection config balanceRetrieve
          = ConnectionResult.connected config.requiredStripeVersion
              config.appVersion)
    ∧ (∀ e, balanceRetrieve = Except.error e →
        verifyConnection config balanceRetrieve
          = ConnectionResult.failed e.message) := by
  constructor
  · intro h
    rw [h]
    rfl
  · intro e h
    rw [h]
    rfl

/-- C7 witness: the theorem evaluated on a concrete success outcome and a
concrete failing outcome with a non-empty message. -/
theorem C7_verify_connection_total_witness :
    verifyConnection exConfig (Except.ok ())
      = ConnectionResult.connected "2025-01-27.acacia" "1.0.2"
    ∧ verifyConnection exConfig (Except.error { message := "Invalid API Key" })
      = ConnectionResult.failed "Invalid API Key" :=
  ⟨(C7_verify_connection_total exConfig (Except.ok ())).1 rfl,
   (C7_verify_connection_total exConfig
      (Except.error { message := "Invalid API Key" })).2
      { message := "Invalid API Key" } rfl⟩

/-- C7 counterexample: the claim promises a non-empty message on any
provider failure, but verifyConnection forwards the provider error message
unchecked, so a provider error whose message is the empty string yields an
error result whose message has length zero. -/
theorem C7_empty_message_counterexample :
    verifyConnection exConfig (Except.error { message := "" })
      = ConnectionResult.failed ""
    ∧ "".length = 0 :=
  ⟨rfl, rfl⟩

/-- C8: every catalog entry in the provider data is mapped into the result
of fetchActiveProducts, with its price equal to the minor-unit amount of
its default price divided by 100; in particular a minor-unit amount of
2599 yields the price 25.99. -/
theorem C8_minor_to_major_units (data : List StripeProduct)
    (p : StripeProduct) (hp : p ∈ data) :
    mapActiveProduct p ∈ fetchActiveProducts data
    ∧ (mapActiveProduct p).price = (p.default_price.unit_amount : ℚ) / 100
    ∧ (p.default_price.unit_amount = 2599 →
        (mapActiveProduct p).price = 25.99) := by
  refine ⟨List.mem_map_of_mem _ hp, rfl, ?_⟩
  intro h
  show (p.default_price.unit_amount : ℚ) / 100 = 25.99
  rw [h]
  norm_num

/-- C8 witness: the theorem evaluated on the concrete entry whose default
price has minor-unit amount 2599. -/
theorem C8_minor_to_major_units_witness :
    mapActiveProduct product2599 ∈ fetchActiveProducts [product2599]
    ∧ (mapActiveProduct product2599).price
        = (product2599.default_price.unit_amount : ℚ) / 100
    ∧ (product2599.default_price.unit_amount = 2599 →
        (mapActiveProduct product2599).price = 25.99) :=
  C8_minor_to_major_units [product2599] product2599 (List.Mem.head _)

/-- C10: every product returned by fetchActiveProducts has its currency
field equal to the constant string usd, whatever the currency recorded on
the default price of the catalog entry. -/
theorem C10_currency_constant (data : List StripeProduct)
    (mp : MappedProduct) (h : mp ∈ fetchActiveProducts data) :
    mp.currency = "usd" := by
  rcases List.mem_map.mp h with ⟨p, _, rfl⟩
  rfl

/-- C10 witness: the theorem evaluated on a concrete catalog entry whose
default price is denominated in eur; the mapped currency is still usd. -/
theorem C10_currency_constant_witness :
    (mapActiveProduct productEur).currency = "usd" :=
  C10_currency_constant [productEur] (mapActiveProduct productEur)
    (List.mem_map_of_mem _ (List.Mem.head _))
